import Mathlib

/-!
Verification of the Agent Interaction Bridge of the `ai-excel-interviewer`
frontend (`src/frontend/src/components/InterviewPage.tsx`), as a shallow
embedding in Lean 4.

Modelling conventions:

* React state (`messages`, `isLoading`, `contextId`, `progress`,
  `questionCount`) and the browser `localStorage` slot
  `excel_interviewer_context_id` are gathered into an explicit `SendState`
  record threaded through the functions.  Functional state updates
  (`setMessages(prev => ...)`) act on the threaded store.
* The component reads the `contextId` state variable through the render
  closure: for the whole lifetime of one `sendMessageToAgent` call chain
  (including its recursive retries) every read of `contextId` sees the
  value captured at render time.  This render-time snapshot is passed as
  the explicit argument `ctx0`; `setContextId` writes go to the store
  field `contextId` (visible to later renders), and
  `localStorage.setItem` writes go to `storedContextId`.
* Network behaviour is an oracle: attempt `n` of the dispatcher receives
  `env n : AttemptEnv`, holding the outcome of its initial `fetch` and,
  when a task id was obtained, the sequence of poll responses its
  `pollForResult` call will observe.
* The ghost counters `attempts` (number of `message.send` fetches
  performed) and `delays` (number of 1-second inter-attempt sleeps
  performed) instrument the run; they influence nothing.
* Each iteration of the polling loop performs one 1-second sleep before
  its fetch; `pollForResult` returns, next to the terminal record, the
  number of polls (equivalently of 1-second sleeps) it performed.
-/

namespace AiExcelInterviewer

/-- A `Message` of the conversation transcript (`interface Message`):
the sender is `'ai'` or `'user'`. -/
inductive Sender
  | ai
  | user
deriving DecidableEq

structure Message where
  sender : Sender
  text : String
deriving DecidableEq

/-- Recogniser for agent-authored messages. -/
def Message.isAi (m : Message) : Bool :=
  match m.sender with
  | Sender.ai => true
  | Sender.user => false

/-- A task record as read from a poll response:
`taskData.result.status.state` (a raw string) and
`taskData.result.status.message.parts[0].root.text` (possibly absent). -/
structure TaskRecord where
  state : String
  messageText : Option String
deriving DecidableEq

/-- Outcome of one poll iteration of `pollForResult`:
the fetch may fail in transit, return a non-ok HTTP status, return a
JSON-RPC error envelope, return no `result` field, or return a task
record. -/
inductive PollResponse
  | transportError (msg : String)
  | httpError (status : Nat)
  | rpcError (msg : String)
  | noResult
  | result (rec : TaskRecord)
deriving DecidableEq

/-- Outcome of the initial `message.send` fetch of one dispatcher
attempt. -/
inductive FetchOutcome
  | transportError (msg : String)
  | httpError (status : Nat)
  | rpcError (msg : String)
  | noTaskId
  | task (taskId : String) (contextId : Option String)
deriving DecidableEq

/-- Environment of one dispatcher attempt: the outcome of its initial
fetch and the poll responses observed by its polling loop. -/
structure AttemptEnv where
  fetch : FetchOutcome
  polls : Nat → PollResponse

/-- The bridge state: React state of `InterviewPage` plus the
`localStorage` slot, plus the two ghost counters. -/
structure SendState where
  messages : List Message
  isLoading : Bool
  contextId : Option String
  storedContextId : Option String
  progress : Nat
  questionCount : Nat
  attempts : Nat
  delays : Nat
deriving DecidableEq

/-- The state of a freshly mounted page: `useState([])`,
`useState(false)`, `useState(null)`, `useState(0)`, `useState(0)`,
empty `localStorage`. -/
def initState : SendState :=
  { messages := []
    isLoading := false
    contextId := none
    storedContextId := none
    progress := 0
    questionCount := 0
    attempts := 0
    delays := 0 }

/-- `const terminalStates = ['completed', 'failed', 'canceled', 'rejected']`. -/
def terminalStates : List String :=
  ["completed", "failed", "canceled", "rejected"]

/-- The polling loop body of `pollForResult`: `for (let i = 0; i < fuel; i++)`
with `fuel` iterations remaining and `i` the current index.  Each
iteration awaits a 1-second sleep, then fetches `task.get`; every
poll-level error (transport failure, non-ok HTTP status, JSON-RPC error
envelope) is caught and swallowed, a missing `result` is skipped with
`continue`, and a record whose state is terminal is returned together
with the number of polls performed so far.  Exhausting the iterations
throws `Polling timed out.`. -/
def pollLoop (polls : Nat → PollResponse) : Nat → Nat → Except String (TaskRecord × Nat)
  | 0, _ => Except.error "Polling timed out."
  | fuel + 1, i =>
    match polls i with
    | PollResponse.result rec =>
      if terminalStates.contains rec.state then Except.ok (rec, i + 1)
      else pollLoop polls fuel (i + 1)
    | _ => pollLoop polls fuel (i + 1)

/-- `pollForResult(taskId)`: 360 iterations of the polling loop, starting
at index 0. -/
def pollForResult (polls : Nat → PollResponse) : Except String (TaskRecord × Nat) :=
  pollLoop polls 360 0

/-- `parseInt` on a non-empty run of ASCII digits. -/
def digitsToNat (ds : List Char) : Nat :=
  ds.foldl (fun acc c => acc * 10 + (c.toNat - 48)) 0

/-- Case-insensitive literal match: `matchCI pat cs` returns the suffix of
`cs` after `pat` when the head of `cs` matches `pat` case-insensitively
(the pattern is given lower-case). -/
def matchCI : List Char → List Char → Option (List Char)
  | [], rest => some rest
  | _ :: _, [] => none
  | p :: ps, c :: cs => if c.toLower = p then matchCI ps cs else none

/-- The literal part of the regex `/Question (\d+)/i`, lower-cased. -/
def questionPattern : List Char :=
  ['q', 'u', 'e', 's', 't', 'i', 'o', 'n', ' ']

/-- `text.match(/Question (\d+)/i)` followed by `parseInt` of the capture:
scan left to right for a case-insensitive occurrence of `Question `
followed by at least one digit; return the parsed maximal digit run of
the first such occurrence. -/
def questionScan : List Char → Option Nat
  | [] => none
  | c :: cs =>
    match matchCI questionPattern (c :: cs) with
    | some rest =>
      let ds := rest.takeWhile Char.isDigit
      if ds.isEmpty then questionScan cs
      else some (digitsToNat ds)
    | none => questionScan cs

/-- The progress update of `sendMessageToAgent`: on
`newAIMessageText.match(/Question (\d+)/i)` set
`questionCount = parseInt(match[1])` and `progress = newCount * 20`;
on no match leave both unchanged. -/
def updateProgress (newText : String) (s : SendState) : SendState :=
  match questionScan newText.data with
  | some n => { s with questionCount := n, progress := n * 20 }
  | none => s

/-- `finalTask.status?.message?.parts[0]?.root?.text || 'No response text'`:
JavaScript `||` falls through on a missing text and on the empty
string. -/
def extractReplyText (rec : TaskRecord) : String :=
  match rec.messageText with
  | some t => if t = "" then "No response text" else t
  | none => "No response text"

/-- JavaScript truthiness of the context id: `null` and `""` are falsy. -/
def ctxTruthy : Option String → Bool
  | none => false
  | some t => t != ""

/-- `if (!contextId && initialTask.result?.context_id) { setContextId(...);
localStorage.setItem('excel_interviewer_context_id', ...); }` — `ctx0` is
the render-time snapshot read by the guard, the writes go to the
store. -/
def applyCtxGuard (ctx0 sctx : Option String) (s : SendState) : SendState :=
  if !(ctxTruthy ctx0) && ctxTruthy sctx then
    { s with contextId := sctx, storedContextId := sctx }
  else s

/-- The synchronous head of `sendMessageToAgent`: `setIsLoading(true)`;
append the user message unless the text is exactly `Start my interview`;
append the agent placeholder `...`. -/
def beginTurn (text : String) (s : SendState) : SendState :=
  let s1 := { s with isLoading := true }
  let s2 :=
    if text ≠ "Start my interview" then
      { s1 with messages := s1.messages ++ [⟨Sender.user, text⟩] }
    else s1
  { s2 with messages := s2.messages ++ [⟨Sender.ai, "..."⟩] }

/-- The `try` block of one dispatcher attempt: perform the `message.send`
fetch (counted in `attempts`); on a transport failure, non-ok HTTP
status, JSON-RPC error envelope or missing task id, throw (returning
`some` error message).  Otherwise run the context-id guard, await
`pollForResult`, and on its success replace the last message with the
extracted reply text after updating the progress signal. -/
def attemptBody (env : AttemptEnv) (ctx0 : Option String) (s0 : SendState) :
    SendState × Option String :=
  let s := { s0 with attempts := s0.attempts + 1 }
  match env.fetch with
  | FetchOutcome.transportError msg => (s, some msg)
  | FetchOutcome.httpError status => (s, some ("HTTP error! Status: " ++ toString status))
  | FetchOutcome.rpcError msg => (s, some ("JSON-RPC error: " ++ msg))
  | FetchOutcome.noTaskId => (s, some "No task ID returned from server")
  | FetchOutcome.task _tid sctx =>
    let s1 := applyCtxGuard ctx0 sctx s
    match pollForResult env.polls with
    | Except.error msg => (s1, some msg)
    | Except.ok (rec, _n) =>
      let newText := extractReplyText rec
      let s2 := updateProgress newText s1
      ({ s2 with messages := s2.messages.dropLast ++ [⟨Sender.ai, newText⟩] }, none)

/-- `sendMessageToAgent(text, retries)`: run the synchronous head and one
attempt; on an error with `retries > 0`, sleep 1 second (counted in
`delays`) and recurse with `retries - 1`; with `retries = 0`, replace
the last message with `Error: ` plus the message of the error.  Either
way the `finally` block sets `isLoading` to `false` on every exit
path. -/
def sendMessageToAgent (env : Nat → AttemptEnv) (ctx0 : Option String) (text : String) :
    Nat → SendState → SendState
  | 0, s =>
    let s1 := beginTurn text s
    match attemptBody (env s1.attempts) ctx0 s1 with
    | (s2, none) => { s2 with isLoading := false }
    | (s2, some errMsg) =>
      { s2 with
        messages := s2.messages.dropLast ++ [⟨Sender.ai, "Error: " ++ errMsg⟩]
        isLoading := false }
  | r + 1, s =>
    let s1 := beginTurn text s
    match attemptBody (env s1.attempts) ctx0 s1 with
    | (s2, none) => { s2 with isLoading := false }
    | (s2, some _errMsg) =>
      let s3 := sendMessageToAgent env ctx0 text r { s2 with delays := s2.delays + 1 }
      { s3 with isLoading := false }

/-- `handleSubmit`: dispatch the trimmed input with the default retry
budget of 3 unless it is empty or a turn is already in flight
(`isLoading`).  The snapshot passed to the turn is the store value at
submit time. -/
def handleSubmit (env : Nat → AttemptEnv) (input : String) (s : SendState) : SendState :=
  if (input.trim != "") && !s.isLoading then
    sendMessageToAgent env s.contextId (input.trim) 3 s
  else s

/-- The mount effect of `InterviewPage`: restore a saved context id from
`localStorage` into the store, then dispatch `Start my interview` — with
the render-time snapshot of `contextId`, which is still `null`. -/
def mountPage (env : Nat → AttemptEnv) (saved : Option String) : SendState :=
  let s0 := { initState with contextId := saved, storedContextId := saved }
  sendMessageToAgent env none "Start my interview" 3 s0

/-- Number of user-authored messages of a transcript. -/
def userCount (msgs : List Message) : Nat :=
  (msgs.filter (fun m => !m.isAi)).length

/-- Number of agent-authored messages of a transcript. -/
def aiCount (msgs : List Message) : Nat :=
  (msgs.filter (fun m => m.isAi)).length

/-- A poll response representing a poll-level error that the loop
swallows: transport failure, non-ok HTTP status, or JSON-RPC error
envelope. -/
def isPollError : PollResponse → Bool
  | PollResponse.transportError _ => true
  | PollResponse.httpError _ => true
  | PollResponse.rpcError _ => true
  | _ => false

/-- A poll response carrying a task record whose state is terminal. -/
def isTerminalResponse : PollResponse → Bool
  | PollResponse.result rec => terminalStates.contains rec.state
  | _ => false

/-! Concrete environments used as test vectors. -/

/-- Every attempt dispatches a task that completes on the first poll. -/
def okEnv : Nat → AttemptEnv :=
  fun _ =>
    { fetch := FetchOutcome.task "task-1" none
      polls := fun _ => PollResponse.result ⟨"completed", some "Thanks for your answer."⟩ }

/-- The first attempt fails in transit; every later attempt succeeds. -/
def failThenOkEnv : Nat → AttemptEnv :=
  fun n =>
    if n = 0 then
      { fetch := FetchOutcome.transportError "Failed to fetch"
        polls := fun _ => PollResponse.noResult }
    else okEnv n

/-- Every attempt fails in transit. -/
def allFailEnv : Nat → AttemptEnv :=
  fun _ =>
    { fetch := FetchOutcome.transportError "Failed to fetch"
      polls := fun _ => PollResponse.noResult }

/-- Two transport failures, then a successful attempt. -/
def twoFailEnv : Nat → AttemptEnv :=
  fun n =>
    if n < 2 then
      { fetch := FetchOutcome.transportError "Failed to fetch"
        polls := fun _ => PollResponse.noResult }
    else
      { fetch := FetchOutcome.task "task-1" none
        polls := fun _ => PollResponse.result ⟨"completed", some "ok"⟩ }

/-- The first attempt obtains continuity token `token-1` but its polling
loop never sees a result and times out; the second attempt obtains
`token-2` and completes. -/
def ctxOverwriteEnv : Nat → AttemptEnv :=
  fun n =>
    if n = 0 then
      { fetch := FetchOutcome.task "t0" (some "token-1")
        polls := fun _ => PollResponse.noResult }
    else
      { fetch := FetchOutcome.task "t1" (some "token-2")
        polls := fun _ => PollResponse.result ⟨"completed", some "done"⟩ }

/-- The poll status sequence `submitted, working, working, completed`. -/
def seqSubWWC : Nat → PollResponse :=
  fun i =>
    if i = 0 then PollResponse.result ⟨"submitted", none⟩
    else if i ≤ 2 then PollResponse.result ⟨"working", none⟩
    else PollResponse.result ⟨"completed", some "Question 1: What is a cell?"⟩

/-- A transport blip on the first poll, then a completed record. -/
def blipPolls : Nat → PollResponse :=
  fun i =>
    if i = 0 then PollResponse.transportError "Failed to fetch"
    else PollResponse.result ⟨"completed", some "done"⟩

/-- An environment whose single dispatch yields a `failed` task carrying
a status message. -/
def failedTaskEnv : Nat → AttemptEnv :=
  fun _ =>
    { fetch := FetchOutcome.task "task-9" none
      polls := fun _ => PollResponse.result ⟨"failed", some "The interview agent crashed."⟩ }

/-- An environment whose single dispatch yields a `failed` task carrying
no status message text. -/
def failedSilentEnv : Nat → AttemptEnv :=
  fun _ =>
    { fetch := FetchOutcome.task "task-9" none
      polls := fun _ => PollResponse.result ⟨"failed", none⟩ }

end AiExcelInterviewer

deriving instance DecidableEq for Except

namespace AiExcelInterviewer

/-! Helper lemmas. -/

@[simp] lemma applyCtxGuard_messages (c t : Option String) (s : SendState) :
    (applyCtxGuard c t s).messages = s.messages := by
  unfold applyCtxGuard; split <;> rfl

@[simp] lemma applyCtxGuard_attempts (c t : Option String) (s : SendState) :
    (applyCtxGuard c t s).attempts = s.attempts := by
  unfold applyCtxGuard; split <;> rfl

@[simp] lemma applyCtxGuard_isLoading (c t : Option String) (s : SendState) :
    (applyCtxGuard c t s).isLoading = s.isLoading := by
  unfold applyCtxGuard; split <;> rfl

@[simp] lemma applyCtxGuard_delays (c t : Option String) (s : SendState) :
    (applyCtxGuard c t s).delays = s.delays := by
  unfold applyCtxGuard; split <;> rfl

lemma applyCtxGuard_of_truthy (c t : Option String) (s : SendState)
    (h : ctxTruthy c = true) : applyCtxGuard c t s = s := by
  unfold applyCtxGuard; simp [h]

@[simp] lemma updateProgress_messages (t : String) (s : SendState) :
    (updateProgress t s).messages = s.messages := by
  unfold updateProgress; split <;> rfl

@[simp] lemma updateProgress_attempts (t : String) (s : SendState) :
    (updateProgress t s).attempts = s.attempts := by
  unfold updateProgress; split <;> rfl

@[simp] lemma updateProgress_isLoading (t : String) (s : SendState) :
    (updateProgress t s).isLoading = s.isLoading := by
  unfold updateProgress; split <;> rfl

@[simp] lemma updateProgress_delays (t : String) (s : SendState) :
    (updateProgress t s).delays = s.delays := by
  unfold updateProgress; split <;> rfl

@[simp] lemma updateProgress_contextId (t : String) (s : SendState) :
    (updateProgress t s).contextId = s.contextId := by
  unfold updateProgress; split <;> rfl

@[simp] lemma updateProgress_storedContextId (t : String) (s : SendState) :
    (updateProgress t s).storedContextId = s.storedContextId := by
  unfold updateProgress; split <;> rfl

@[simp] lemma beginTurn_attempts (text : String) (s : SendState) :
    (beginTurn text s).attempts = s.attempts := by
  unfold beginTurn; split <;> rfl

@[simp] lemma beginTurn_delays (text : String) (s : SendState) :
    (beginTurn text s).delays = s.delays := by
  unfold beginTurn; split <;> rfl

@[simp] lemma beginTurn_isLoading (text : String) (s : SendState) :
    (beginTurn text s).isLoading = true := by
  unfold beginTurn; split <;> rfl

@[simp] lemma beginTurn_contextId (text : String) (s : SendState) :
    (beginTurn text s).contextId = s.contextId := by
  unfold beginTurn; split <;> rfl

@[simp] lemma beginTurn_storedContextId (text : String) (s : SendState) :
    (beginTurn text s).storedContextId = s.storedContextId := by
  unfold beginTurn; split <;> rfl

lemma beginTurn_messages (text : String) (s : SendState)
    (h : text ≠ "Start my interview") :
    (beginTurn text s).messages =
      s.messages ++ [⟨Sender.user, text⟩, ⟨Sender.ai, "..."⟩] := by
  unfold beginTurn; simp [h]

lemma beginTurn_messages_start (s : SendState) :
    (beginTurn "Start my interview" s).messages = s.messages ++ [⟨Sender.ai, "..."⟩] := by
  unfold beginTurn; simp

lemma attemptBody_attempts (env : AttemptEnv) (ctx0 : Option String) (s : SendState) :
    (attemptBody env ctx0 s).1.attempts = s.attempts + 1 := by
  unfold attemptBody
  cases env.fetch with
  | task tid sctx =>
    cases hp : pollForResult env.polls with
    | error msg => simp
    | ok p => rcases p with ⟨rec, n⟩; simp
  | transportError msg => rfl
  | httpError st => rfl
  | rpcError msg => rfl
  | noTaskId => rfl

lemma attemptBody_cases (env : AttemptEnv) (ctx0 : Option String) (s : SendState) :
    ((attemptBody env ctx0 s).1.messages = s.messages ∧
      ∃ m, (attemptBody env ctx0 s).2 = some m) ∨
    (∃ t, (attemptBody env ctx0 s).1.messages = s.messages.dropLast ++ [⟨Sender.ai, t⟩] ∧
      (attemptBody env ctx0 s).2 = none) := by
  unfold attemptBody
  cases env.fetch with
  | task tid sctx =>
    cases hp : pollForResult env.polls with
    | error msg => left; simp
    | ok p => rcases p with ⟨rec, n⟩; right; exact ⟨extractReplyText rec, by simp⟩
  | transportError msg => left; simp
  | httpError st => left; simp
  | rpcError msg => left; simp
  | noTaskId => left; simp

lemma attemptBody_ctx (env : AttemptEnv) (ctx0 : Option String) (s : SendState)
    (h : ctxTruthy ctx0 = true) :
    (attemptBody env ctx0 s).1.contextId = s.contextId ∧
    (attemptBody env ctx0 s).1.storedContextId = s.storedContextId := by
  unfold attemptBody
  cases env.fetch with
  | task tid sctx =>
    cases hp : pollForResult env.polls with
    | error msg => simp [hp, applyCtxGuard_of_truthy _ _ _ h]
    | ok p => rcases p with ⟨rec, n⟩; simp [hp, applyCtxGuard_of_truthy _ _ _ h]
  | transportError msg => exact ⟨rfl, rfl⟩
  | httpError st => exact ⟨rfl, rfl⟩
  | rpcError msg => exact ⟨rfl, rfl⟩
  | noTaskId => exact ⟨rfl, rfl⟩

lemma attemptBody_success (env : AttemptEnv) (ctx0 : Option String) (s : SendState)
    (tid : String) (sctx : Option String) (rec : TaskRecord) (k : Nat)
    (hfetch : env.fetch = FetchOutcome.task tid sctx)
    (hpoll : pollForResult env.polls = Except.ok (rec, k)) :
    (attemptBody env ctx0 s).1.messages =
      s.messages.dropLast ++ [⟨Sender.ai, extractReplyText rec⟩] ∧
    (attemptBody env ctx0 s).2 = none := by
  unfold attemptBody
  rw [hfetch, hpoll]
  simp

lemma attemptBody_transportError (env : AttemptEnv) (ctx0 : Option String) (s : SendState)
    (msg : String) (hfetch : env.fetch = FetchOutcome.transportError msg) :
    attemptBody env ctx0 s = ({ s with attempts := s.attempts + 1 }, some msg) := by
  unfold attemptBody
  rw [hfetch]

lemma attemptBody_pollError (env : AttemptEnv) (ctx0 : Option String) (s : SendState)
    (tid : String) (sctx : Option String) (msg : String)
    (hfetch : env.fetch = FetchOutcome.task tid sctx)
    (hpoll : pollForResult env.polls = Except.error msg) :
    attemptBody env ctx0 s =
      (applyCtxGuard ctx0 sctx { s with attempts := s.attempts + 1 }, some msg) := by
  unfold attemptBody
  rw [hfetch, hpoll]

lemma send_isLoading_false (env : Nat → AttemptEnv) (ctx0 : Option String) (text : String)
    (r : Nat) (s : SendState) :
    (sendMessageToAgent env ctx0 text r s).isLoading = false := by
  cases r with
  | zero =>
    unfold sendMessageToAgent
    simp only [beginTurn_attempts]
    rcases hB : attemptBody (env s.attempts) ctx0 (beginTurn text s)
      with ⟨s2, res⟩
    cases res <;> simp [hB]
  | succ r =>
    unfold sendMessageToAgent
    simp only [beginTurn_attempts]
    rcases hB : attemptBody (env s.attempts) ctx0 (beginTurn text s)
      with ⟨s2, res⟩
    cases res <;> simp [hB]

lemma send_attempts_le (env : Nat → AttemptEnv) (ctx0 : Option String) (text : String) :
    ∀ (r : Nat) (s : SendState),
      (sendMessageToAgent env ctx0 text r s).attempts ≤ s.attempts + r + 1 := by
  intro r
  induction r with
  | zero =>
    intro s
    unfold sendMessageToAgent
    simp only [beginTurn_attempts]
    rcases hB : attemptBody (env s.attempts) ctx0 (beginTurn text s)
      with ⟨s2, res⟩
    have hAt := attemptBody_attempts (env s.attempts) ctx0 (beginTurn text s)
    rw [hB] at hAt
    simp only [beginTurn_attempts] at hAt
    cases res <;> simp [hB] <;> omega
  | succ r ih =>
    intro s
    unfold sendMessageToAgent
    simp only [beginTurn_attempts]
    rcases hB : attemptBody (env s.attempts) ctx0 (beginTurn text s)
      with ⟨s2, res⟩
    have hAt := attemptBody_attempts (env s.attempts) ctx0 (beginTurn text s)
    rw [hB] at hAt
    simp only [beginTurn_attempts] at hAt
    cases res with
    | none => simp [hB]; omega
    | some m =>
      have hrec := ih { s2 with delays := s2.delays + 1 }
      simp only at hrec
      simp [hB]
      omega

lemma send_success_state (env : Nat → AttemptEnv) (ctx0 : Option String) (text : String)
    (r : Nat) (s : SendState) (tid : String) (sctx : Option String) (rec : TaskRecord) (k : Nat)
    (hfetch : (env s.attempts).fetch = FetchOutcome.task tid sctx)
    (hpoll : pollForResult (env s.attempts).polls = Except.ok (rec, k)) :
    (sendMessageToAgent env ctx0 text r s).messages =
      (beginTurn text s).messages.dropLast ++ [⟨Sender.ai, extractReplyText rec⟩] ∧
    (sendMessageToAgent env ctx0 text r s).attempts = s.attempts + 1 := by
  have hA := attemptBody_success (env s.attempts) ctx0 (beginTurn text s) tid sctx rec k
    hfetch hpoll
  have hAt := attemptBody_attempts (env s.attempts) ctx0 (beginTurn text s)
  cases r with
  | zero =>
    unfold sendMessageToAgent
    simp only [beginTurn_attempts]
    rcases hB : attemptBody (env s.attempts) ctx0 (beginTurn text s) with ⟨s2, res⟩
    rw [hB] at hA hAt
    cases res with
    | some m => exact absurd hA.2 (by simp)
    | none =>
      simp only at hA hAt
      simp [hB, hA.1, hAt]
  | succ r =>
    unfold sendMessageToAgent
    simp only [beginTurn_attempts]
    rcases hB : attemptBody (env s.attempts) ctx0 (beginTurn text s) with ⟨s2, res⟩
    rw [hB] at hA hAt
    cases res with
    | some m => exact absurd hA.2 (by simp)
    | none =>
      simp only at hA hAt
      simp [hB, hA.1, hAt]

lemma send_zero_fail (env : Nat → AttemptEnv) (ctx0 : Option String) (text : String)
    (s s2 : SendState) (msg : String)
    (hB : attemptBody (env s.attempts) ctx0 (beginTurn text s) = (s2, some msg)) :
    (sendMessageToAgent env ctx0 text 0 s).messages =
      s2.messages.dropLast ++ [⟨Sender.ai, "Error: " ++ msg⟩] ∧
    (sendMessageToAgent env ctx0 text 0 s).attempts = s.attempts + 1 := by
  unfold sendMessageToAgent
  simp only [beginTurn_attempts]
  have hAt := attemptBody_attempts (env s.attempts) ctx0 (beginTurn text s)
  rw [hB] at hAt
  simp only [beginTurn_attempts] at hAt
  simp [hB, hAt]

lemma send_ctx (env : Nat → AttemptEnv) (ctx0 : Option String) (text : String)
    (h : ctxTruthy ctx0 = true) :
    ∀ (r : Nat) (s : SendState),
      (sendMessageToAgent env ctx0 text r s).contextId = s.contextId ∧
      (sendMessageToAgent env ctx0 text r s).storedContextId = s.storedContextId := by
  intro r
  induction r with
  | zero =>
    intro s
    unfold sendMessageToAgent
    simp only [beginTurn_attempts]
    rcases hB : attemptBody (env s.attempts) ctx0 (beginTurn text s)
      with ⟨s2, res⟩
    have hc := attemptBody_ctx (env s.attempts) ctx0 (beginTurn text s) h
    rw [hB] at hc
    simp only [beginTurn_contextId, beginTurn_storedContextId] at hc
    cases res <;> simp [hB, hc.1, hc.2]
  | succ r ih =>
    intro s
    unfold sendMessageToAgent
    simp only [beginTurn_attempts]
    rcases hB : attemptBody (env s.attempts) ctx0 (beginTurn text s)
      with ⟨s2, res⟩
    have hc := attemptBody_ctx (env s.attempts) ctx0 (beginTurn text s) h
    rw [hB] at hc
    simp only [beginTurn_contextId, beginTurn_storedContextId] at hc
    cases res with
    | none => simp [hB, hc.1, hc.2]
    | some m =>
      have hrec := ih { s2 with delays := s2.delays + 1 }
      simp only at hrec
      simp only [hB]
      exact ⟨hrec.1.trans hc.1, hrec.2.trans hc.2⟩

lemma userCount_append (xs ys : List Message) :
    userCount (xs ++ ys) = userCount xs + userCount ys := by
  simp [userCount, List.filter_append]

@[simp] lemma userCount_ai_singleton (t : String) :
    userCount [⟨Sender.ai, t⟩] = 0 := rfl

lemma send_userCount_start (env : Nat → AttemptEnv) (ctx0 : Option String) :
    ∀ (r : Nat) (s : SendState),
      userCount (sendMessageToAgent env ctx0 "Start my interview" r s).messages =
        userCount s.messages := by
  intro r
  induction r with
  | zero =>
    intro s
    unfold sendMessageToAgent
    simp only [beginTurn_attempts]
    rcases hB : attemptBody (env s.attempts) ctx0
        (beginTurn "Start my interview" s) with ⟨s2, res⟩
    have hc := attemptBody_cases (env s.attempts) ctx0
        (beginTurn "Start my interview" s)
    rw [hB] at hc
    have hbm := beginTurn_messages_start s
    cases res with
    | none =>
      rcases hc with ⟨_, m, hm⟩ | ⟨t, hmsg, _⟩
      · exact absurd hm (by simp)
      · simp only at hmsg
        simp [hB, hmsg, hbm, List.dropLast_concat, userCount_append]
    | some m =>
      rcases hc with ⟨hmsg, _⟩ | ⟨t, _, hnone⟩
      · simp only at hmsg
        simp [hB, hmsg, hbm, List.dropLast_concat, userCount_append]
      · exact absurd hnone (by simp)
  | succ r ih =>
    intro s
    unfold sendMessageToAgent
    simp only [beginTurn_attempts]
    rcases hB : attemptBody (env s.attempts) ctx0
        (beginTurn "Start my interview" s) with ⟨s2, res⟩
    have hc := attemptBody_cases (env s.attempts) ctx0
        (beginTurn "Start my interview" s)
    rw [hB] at hc
    have hbm := beginTurn_messages_start s
    cases res with
    | none =>
      rcases hc with ⟨_, m, hm⟩ | ⟨t, hmsg, _⟩
      · exact absurd hm (by simp)
      · simp only at hmsg
        simp [hB, hmsg, hbm, List.dropLast_concat, userCount_append]
    | some m =>
      have hrec := ih { s2 with delays := s2.delays + 1 }
      simp only at hrec
      simp only [hB]
      have hs2 : userCount s2.messages = userCount s.messages := by
        rcases hc with ⟨hmsg, _⟩ | ⟨t, hmsg, _⟩
        · simp only at hmsg
          rw [hmsg, hbm, userCount_append]
          simp
        · simp only at hmsg
          rw [hmsg, hbm, List.dropLast_concat, userCount_append]
          simp
      exact hrec.trans hs2

lemma pollLoop_continue (polls : Nat → PollResponse) (fuel i : Nat)
    (h : isTerminalResponse (polls i) = false) :
    pollLoop polls (fuel + 1) i = pollLoop polls fuel (i + 1) := by
  cases hp : polls i with
  | result rec =>
    have hterm : terminalStates.contains rec.state = false := by
      have h2 := h
      rw [hp] at h2
      simpa [isTerminalResponse] using h2
    have hterm2 : rec.state ∉ terminalStates := by simpa using hterm
    simp [pollLoop, hp, hterm2]
  | transportError msg => simp [pollLoop, hp]
  | httpError st => simp [pollLoop, hp]
  | rpcError msg => simp [pollLoop, hp]
  | noResult => simp [pollLoop, hp]

lemma pollLoop_hit (polls : Nat → PollResponse) (fuel i : Nat) (rec : TaskRecord)
    (hp : polls i = PollResponse.result rec)
    (ht : terminalStates.contains rec.state = true) :
    pollLoop polls (fuel + 1) i = Except.ok (rec, i + 1) := by
  have ht2 : rec.state ∈ terminalStates := by simpa using ht
  simp [pollLoop, hp, ht2]

lemma pollLoop_first_terminal (polls : Nat → PollResponse) :
    ∀ (j fuel i : Nat) (rec : TaskRecord), j < fuel →
      (∀ k, k < j → isTerminalResponse (polls (i + k)) = false) →
      polls (i + j) = PollResponse.result rec →
      terminalStates.contains rec.state = true →
      pollLoop polls fuel i = Except.ok (rec, i + j + 1) := by
  intro j
  induction j with
  | zero =>
    intro fuel i rec hlt hpre hp ht
    cases fuel with
    | zero => omega
    | succ f => simpa using pollLoop_hit polls f i rec (by simpa using hp) ht
  | succ j ih =>
    intro fuel i rec hlt hpre hp ht
    cases fuel with
    | zero => omega
    | succ f =>
      have h0 : isTerminalResponse (polls i) = false := by
        have := hpre 0 (by omega)
        simpa using this
      rw [pollLoop_continue polls f i h0]
      have hpre2 : ∀ k, k < j → isTerminalResponse (polls (i + 1 + k)) = false := by
        intro k hk
        have := hpre (k + 1) (by omega)
        have e : i + (k + 1) = i + 1 + k := by omega
        rwa [e] at this
      have hp2 : polls (i + 1 + j) = PollResponse.result rec := by
        have e : i + (j + 1) = i + 1 + j := by omega
        rwa [e] at hp
      have := ih f (i + 1) rec (by omega) hpre2 hp2 ht
      have e : i + 1 + j + 1 = i + (j + 1) + 1 := by omega
      rwa [e] at this

/-! Claim theorems. -/

/-- Claim C1, counterexample: with one transport failure before a
success, the turn for the utterance `hello` ends with two agent
messages in the transcript — the failed attempt's placeholder is left
behind as `...` and the retry appends a fresh user message and a fresh
placeholder — refuting that exactly one agent placeholder is appended
per turn and that no additional agent messages are created on retry. -/
theorem C1_counterexample :
    (sendMessageToAgent failThenOkEnv none "hello" 3 initState).messages =
      [⟨Sender.user, "hello"⟩, ⟨Sender.ai, "..."⟩, ⟨Sender.user, "hello"⟩,
        ⟨Sender.ai, "Thanks for your answer."⟩] ∧
    aiCount (sendMessageToAgent failThenOkEnv none "hello" 3 initState).messages ≠ 1 := by
  decide

/-- Claim C1 as amended: each send attempt appends exactly one agent
placeholder (preceded by one user message for a non-start utterance),
and a successful attempt's final update mutates only the most recent
placeholder — so a turn whose dispatch succeeds without retries appends
exactly one user message and one agent message, the latter being the
placeholder replaced in place by the reply.  A failed attempt that is
retried, however, leaves its placeholder behind and the retry appends a
fresh user message and placeholder. -/
theorem C1_amended (env : Nat → AttemptEnv) (ctx0 : Option String) (text : String)
    (r : Nat) (s : SendState) (tid : String) (sctx : Option String)
    (rec : TaskRecord) (k : Nat)
    (htext : text ≠ "Start my interview")
    (hfetch : (env s.attempts).fetch = FetchOutcome.task tid sctx)
    (hpoll : pollForResult (env s.attempts).polls = Except.ok (rec, k)) :
    (sendMessageToAgent env ctx0 text r s).messages =
      s.messages ++ [⟨Sender.user, text⟩, ⟨Sender.ai, extractReplyText rec⟩] := by
  have h := (send_success_state env ctx0 text r s tid sctx rec k hfetch hpoll).1
  rw [beginTurn_messages text s htext] at h
  rw [h]
  rw [show s.messages ++ [⟨Sender.user, text⟩, ⟨Sender.ai, ("..." : String)⟩]
      = (s.messages ++ [⟨Sender.user, text⟩]) ++ [⟨Sender.ai, "..."⟩] by simp]
  rw [List.dropLast_concat]
  simp

/-- Witness for the amended C1 at a concrete input. -/
theorem C1_witness :
    ("hello" ≠ "Start my interview") ∧
    (okEnv 0).fetch = FetchOutcome.task "task-1" none ∧
    pollForResult (okEnv 0).polls =
      Except.ok (⟨"completed", some "Thanks for your answer."⟩, 1) ∧
    (sendMessageToAgent okEnv none "hello" 3 initState).messages =
      [⟨Sender.user, "hello"⟩,
        ⟨Sender.ai, extractReplyText ⟨"completed", some "Thanks for your answer."⟩⟩] :=
  ⟨by decide, rfl, rfl,
    C1_amended okEnv none "hello" 3 initState "task-1" none
      ⟨"completed", some "Thanks for your answer."⟩ 1 (by decide) rfl rfl⟩

/-- Claim C2, counterexample: with every attempt failing in transit and
the default budget `retries = 3`, `sendMessageToAgent` performs 4
network attempts (one initial plus three retries), refuting the bound
of at most 3 attempts per utterance. -/
theorem C2_counterexample :
    (sendMessageToAgent allFailEnv none "hello" 3 initState).attempts = 4 ∧
    ¬ ((sendMessageToAgent allFailEnv none "hello" 3 initState).attempts ≤ 3) := by
  decide

/-- Claim C2 as amended: `send` performs at most `retries + 1` network
attempts in total (4 under the default budget of 3 retries), with one
fixed 1-second delay between consecutive attempts; a successful attempt
short-circuits the remaining retries, and given 2 simulated transport
failures followed by 1 success, `send` succeeds on the 3rd attempt
having performed exactly 2 inter-attempt delays. -/
theorem C2_amended :
    (∀ (env : Nat → AttemptEnv) (ctx0 : Option String) (text : String) (r : Nat)
        (s : SendState),
        (sendMessageToAgent env ctx0 text r s).attempts ≤ s.attempts + r + 1) ∧
    (sendMessageToAgent twoFailEnv none "hello" 3 initState).attempts = 3 ∧
    (sendMessageToAgent twoFailEnv none "hello" 3 initState).delays = 2 ∧
    (sendMessageToAgent twoFailEnv none "hello" 3 initState).messages.getLast? =
      some ⟨Sender.ai, "ok"⟩ := by
  refine ⟨fun env ctx0 text => send_attempts_le env ctx0 text, by decide, by decide, by decide⟩

/-- Claim C3, counterexample: the write-once guard reads the stale
render-time snapshot of `contextId`, so within one turn a retried
attempt overwrites the token stored by an earlier attempt.  After the
first attempt (budget 0) the store holds `token-1`; the full retried
run of the same turn ends with `token-2` in both the state and the
`localStorage` slot — the second token wins, refuting that only the
first stored token is ever retained. -/
theorem C3_counterexample :
    (sendMessageToAgent ctxOverwriteEnv none "hello" 0 initState).storedContextId =
      some "token-1" ∧
    (sendMessageToAgent ctxOverwriteEnv none "hello" 0 initState).contextId =
      some "token-1" ∧
    (sendMessageToAgent ctxOverwriteEnv none "hello" 3 initState).storedContextId =
      some "token-2" ∧
    (sendMessageToAgent ctxOverwriteEnv none "hello" 3 initState).contextId =
      some "token-2" := by
  decide

/-- Claim C3 as amended: the continuity token is write-once only across
turns, not within one.  When the render-time snapshot of the token is
non-empty at the start of a turn, no later server-returned token
overwrites the stored token during that turn — but within a single
turn whose snapshot is empty, each retried attempt passes the guard
again and the last token of the turn wins (see the
counterexample). -/
theorem C3_amended (env : Nat → AttemptEnv) (ctx0 : Option String) (text : String)
    (r : Nat) (s : SendState) (h : ctxTruthy ctx0 = true) :
    (sendMessageToAgent env ctx0 text r s).contextId = s.contextId ∧
    (sendMessageToAgent env ctx0 text r s).storedContextId = s.storedContextId :=
  send_ctx env ctx0 text h r s

/-- Witness for the amended C3 at a concrete input. -/
theorem C3_witness :
    ctxTruthy (some "tok") = true ∧
    (sendMessageToAgent ctxOverwriteEnv (some "tok") "hello" 3 initState).contextId =
      initState.contextId ∧
    (sendMessageToAgent ctxOverwriteEnv (some "tok") "hello" 3 initState).storedContextId =
      initState.storedContextId :=
  ⟨by decide,
    (C3_amended ctxOverwriteEnv (some "tok") "hello" 3 initState (by decide)).1,
    (C3_amended ctxOverwriteEnv (some "tok") "hello" 3 initState (by decide)).2⟩

set_option maxRecDepth 4000 in
/-- Claim C4: the resolver returns the first task record whose state is
terminal, polling at a fixed 1-second cadence (one sleep per poll, the
returned count being the number of polls); on the status sequence
`submitted, working, working, completed` it returns after exactly 4
polls with the completed record, and on an all-`working` sequence it
fails with `Polling timed out.` after its 360-iteration ceiling. -/
theorem C4_resolver :
    (∀ (polls : Nat → PollResponse) (j : Nat) (rec : TaskRecord),
        j < 360 →
        (∀ k, k < j → isTerminalResponse (polls k) = false) →
        polls j = PollResponse.result rec →
        terminalStates.contains rec.state = true →
        pollForResult polls = Except.ok (rec, j + 1)) ∧
    pollForResult seqSubWWC =
      Except.ok (⟨"completed", some "Question 1: What is a cell?"⟩, 4) ∧
    pollForResult (fun _ => PollResponse.result ⟨"working", none⟩) =
      Except.error "Polling timed out." := by
  refine ⟨?_, by decide, by decide⟩
  intro polls j rec hj hpre hp ht
  have h := pollLoop_first_terminal polls j 360 0 rec hj
    (by intro k hk; simpa using hpre k hk) (by simpa using hp) ht
  simpa [pollForResult] using h

set_option maxRecDepth 4000 in
/-- Witness for C4 at a concrete input. -/
theorem C4_witness :
    (3 < 360) ∧
    (∀ k, k < 3 → isTerminalResponse (seqSubWWC k) = false) ∧
    seqSubWWC 3 = PollResponse.result ⟨"completed", some "Question 1: What is a cell?"⟩ ∧
    terminalStates.contains "completed" = true ∧
    pollForResult seqSubWWC =
      Except.ok (⟨"completed", some "Question 1: What is a cell?"⟩, 4) :=
  ⟨by decide, by decide, rfl, rfl,
    C4_resolver.1 seqSubWWC 3 ⟨"completed", some "Question 1: What is a cell?"⟩
      (by decide) (by decide) rfl rfl⟩

/-- Claim C5, counterexample: the progress update applies no
`min(100, _)` clamp: the reply text `Question 6: bonus round` sets
`progress` to `120`, which exceeds 100 and differs from
`min 100 (6 * 20) = 100`, refuting that `percentComplete` always lies
in `[0, 100]`. -/
theorem C5_counterexample :
    (updateProgress "Question 6: bonus round" initState).progress = 120 ∧
    ¬ ((updateProgress "Question 6: bonus round" initState).progress ≤ 100) ∧
    (updateProgress "Question 6: bonus round" initState).progress ≠ min 100 (6 * 20) := by
  decide

/-- Claim C5 as amended: for a reply text with ordinal marker
`Question N` the extractor sets `stepIndex = N` and
`percentComplete = N * 20` with no clamping (so the value exceeds 100
whenever `N > 5`); for a reply text with no marker the previous
progress signal is left unchanged.  The observed example
`Question 3: ...` yields step 3 at 60 percent. -/
theorem C5_amended :
    (∀ (text : String) (n : Nat) (s : SendState),
        questionScan text.data = some n →
        (updateProgress text s).questionCount = n ∧
        (updateProgress text s).progress = n * 20) ∧
    (∀ (text : String) (s : SendState),
        questionScan text.data = none → updateProgress text s = s) ∧
    (updateProgress "Question 3: ..." initState).questionCount = 3 ∧
    (updateProgress "Question 3: ..." initState).progress = 60 := by
  refine ⟨?_, ?_, by decide, by decide⟩
  · intro text n s h
    unfold updateProgress
    rw [h]
    exact ⟨rfl, rfl⟩
  · intro text s h
    unfold updateProgress
    rw [h]

/-- Witness for the amended C5 at concrete inputs. -/
theorem C5_witness :
    questionScan ("Question 3: what is a cell?").data = some 3 ∧
    ((updateProgress "Question 3: what is a cell?" initState).questionCount = 3 ∧
      (updateProgress "Question 3: what is a cell?" initState).progress = 60) ∧
    questionScan ("great answer").data = none ∧
    updateProgress "great answer" initState = initState :=
  ⟨by decide, C5_amended.1 "Question 3: what is a cell?" 3 initState (by decide),
    by decide, C5_amended.2.1 "great answer" initState (by decide)⟩

/-- Claim C6: when a turn resolves to a `failed`, `canceled` or
`rejected` task, the placeholder is replaced in place by the record's
user-facing text (its status message, or the fallback) with a single
dispatch and no retry; when the dispatch fails (`DispatchFailed`) or
polling times out (`PollTimeout`) with the retry budget exhausted, the
placeholder is replaced by the diagnostic `Error: ` plus the cause; in
every case the turn closes (`isLoading = false`) and the number of
dispatches never exceeds the retry budget plus one. -/
theorem C6_closure :
    (∀ (env : Nat → AttemptEnv) (ctx0 : Option String) (text : String) (r : Nat)
        (s : SendState) (tid : String) (sctx : Option String) (rec : TaskRecord) (k : Nat),
        (env s.attempts).fetch = FetchOutcome.task tid sctx →
        pollForResult (env s.attempts).polls = Except.ok (rec, k) →
        rec.state ∈ (["failed", "canceled", "rejected"] : List String) →
        (sendMessageToAgent env ctx0 text r s).messages =
          (beginTurn text s).messages.dropLast ++ [⟨Sender.ai, extractReplyText rec⟩] ∧
        (sendMessageToAgent env ctx0 text r s).isLoading = false ∧
        (sendMessageToAgent env ctx0 text r s).attempts = s.attempts + 1) ∧
    (∀ (env : Nat → AttemptEnv) (ctx0 : Option String) (text : String) (s : SendState)
        (msg : String),
        (env s.attempts).fetch = FetchOutcome.transportError msg →
        (sendMessageToAgent env ctx0 text 0 s).messages =
          (beginTurn text s).messages.dropLast ++ [⟨Sender.ai, "Error: " ++ msg⟩] ∧
        (sendMessageToAgent env ctx0 text 0 s).isLoading = false) ∧
    (∀ (env : Nat → AttemptEnv) (ctx0 : Option String) (text : String) (s : SendState)
        (tid : String) (sctx : Option String) (msg : String),
        (env s.attempts).fetch = FetchOutcome.task tid sctx →
        pollForResult (env s.attempts).polls = Except.error msg →
        (sendMessageToAgent env ctx0 text 0 s).messages =
          (beginTurn text s).messages.dropLast ++ [⟨Sender.ai, "Error: " ++ msg⟩] ∧
        (sendMessageToAgent env ctx0 text 0 s).isLoading = false) ∧
    (∀ (env : Nat → AttemptEnv) (ctx0 : Option String) (text : String) (r : Nat)
        (s : SendState),
        (sendMessageToAgent env ctx0 text r s).attempts ≤ s.attempts + r + 1) := by
  refine ⟨?_, ?_, ?_, fun env ctx0 text => send_attempts_le env ctx0 text⟩
  · intro env ctx0 text r s tid sctx rec k hfetch hpoll _hstate
    have h := send_success_state env ctx0 text r s tid sctx rec k hfetch hpoll
    exact ⟨h.1, send_isLoading_false env ctx0 text r s, h.2⟩
  · intro env ctx0 text s msg hfetch
    have hB := attemptBody_transportError (env s.attempts) ctx0 (beginTurn text s) msg hfetch
    have h := send_zero_fail env ctx0 text s _ msg hB
    exact ⟨by simpa using h.1, send_isLoading_false env ctx0 text 0 s⟩
  · intro env ctx0 text s tid sctx msg hfetch hpoll
    have hB := attemptBody_pollError (env s.attempts) ctx0 (beginTurn text s) tid sctx msg
      hfetch hpoll
    have h := send_zero_fail env ctx0 text s _ msg hB
    exact ⟨by simpa using h.1, send_isLoading_false env ctx0 text 0 s⟩

/-- Witness for C6 at a concrete input. -/
theorem C6_witness :
    (failedTaskEnv 0).fetch = FetchOutcome.task "task-9" none ∧
    pollForResult (failedTaskEnv 0).polls =
      Except.ok (⟨"failed", some "The interview agent crashed."⟩, 1) ∧
    (⟨"failed", some "The interview agent crashed."⟩ : TaskRecord).state ∈
      (["failed", "canceled", "rejected"] : List String) ∧
    ((sendMessageToAgent failedTaskEnv none "hello" 3 initState).messages =
      (beginTurn "hello" initState).messages.dropLast ++
        [⟨Sender.ai, extractReplyText ⟨"failed", some "The interview agent crashed."⟩⟩] ∧
      (sendMessageToAgent failedTaskEnv none "hello" 3 initState).isLoading = false ∧
      (sendMessageToAgent failedTaskEnv none "hello" 3 initState).attempts = 1) :=
  ⟨rfl, rfl, by decide,
    C6_closure.1 failedTaskEnv none "hello" 3 initState "task-9" none
      ⟨"failed", some "The interview agent crashed."⟩ 1 rfl rfl (by decide)⟩

/-- Claim C7: the turn-in-progress guard `isLoading` is set when a turn
begins, is `false` after `sendMessageToAgent` returns on every exit
path (the `finally` block), and while it is set `handleSubmit` ignores
every new user submission, so at most one turn is in flight. -/
theorem C7_guard :
    (∀ (text : String) (s : SendState), (beginTurn text s).isLoading = true) ∧
    (∀ (env : Nat → AttemptEnv) (ctx0 : Option String) (text : String) (r : Nat)
        (s : SendState), (sendMessageToAgent env ctx0 text r s).isLoading = false) ∧
    (∀ (env : Nat → AttemptEnv) (input : String) (s : SendState),
        s.isLoading = true → handleSubmit env input s = s) := by
  refine ⟨fun text s => beginTurn_isLoading text s,
    fun env ctx0 text r s => send_isLoading_false env ctx0 text r s, ?_⟩
  intro env input s h
  unfold handleSubmit
  simp [h]

/-- Witness for C7 at a concrete input. -/
theorem C7_witness :
    ({ initState with isLoading := true } : SendState).isLoading = true ∧
    handleSubmit okEnv "hello" { initState with isLoading := true } =
      { initState with isLoading := true } :=
  ⟨rfl, C7_guard.2.2 okEnv "hello" { initState with isLoading := true } rfl⟩

/-- Claim C8: every poll-level error (failed fetch, non-success HTTP
status, JSON-RPC error envelope) is swallowed and treated as a
non-terminal result — one loop iteration observing such an error equals
the loop simply continuing at the next 1-second interval — and a run
with an isolated blip still resolves. -/
theorem C8_swallow :
    (∀ (polls : Nat → PollResponse) (fuel i : Nat),
        isPollError (polls i) = true →
        pollLoop polls (fuel + 1) i = pollLoop polls fuel (i + 1)) ∧
    pollForResult blipPolls = Except.ok (⟨"completed", some "done"⟩, 2) := by
  refine ⟨?_, by decide⟩
  intro polls fuel i h
  have hf : isTerminalResponse (polls i) = false := by
    cases hp : polls i
    case transportError m => simp [isTerminalResponse, hp]
    case httpError st => simp [isTerminalResponse, hp]
    case rpcError m => simp [isTerminalResponse, hp]
    case noResult => rw [hp] at h; simp [isPollError] at h
    case result rec => rw [hp] at h; simp [isPollError] at h
  exact pollLoop_continue polls fuel i hf

/-- Witness for C8 at a concrete input. -/
theorem C8_witness :
    isPollError (blipPolls 0) = true ∧
    pollLoop blipPolls 360 0 = pollLoop blipPolls 359 1 :=
  ⟨rfl, C8_swallow.1 blipPolls 359 0 rfl⟩

/-- Claim C9: a turn for the exact utterance `Start my interview` — the
automatic turn on page load or a typed one — appends no user-authored
message to the conversation, across its whole retry chain; every other
utterance has exactly one user message appended immediately before the
agent placeholder by each dispatch. -/
theorem C9_userMessages :
    (∀ (env : Nat → AttemptEnv) (ctx0 : Option String) (r : Nat) (s : SendState),
        userCount (sendMessageToAgent env ctx0 "Start my interview" r s).messages =
          userCount s.messages) ∧
    (∀ (text : String) (s : SendState), text ≠ "Start my interview" →
        (beginTurn text s).messages =
          s.messages ++ [⟨Sender.user, text⟩, ⟨Sender.ai, "..."⟩]) ∧
    (∀ (s : SendState),
        (beginTurn "Start my interview" s).messages = s.messages ++ [⟨Sender.ai, "..."⟩]) :=
  ⟨fun env ctx0 => send_userCount_start env ctx0,
    fun text s h => beginTurn_messages text s h,
    fun s => beginTurn_messages_start s⟩

/-- Witness for C9 at a concrete input. -/
theorem C9_witness :
    ("hello" ≠ "Start my interview") ∧
    (beginTurn "hello" initState).messages =
      [⟨Sender.user, "hello"⟩, ⟨Sender.ai, "..."⟩] :=
  ⟨by decide, C9_userMessages.2.1 "hello" initState (by decide)⟩

/-- Claim C10: a terminal task record whose status carries no message
text (or an empty one) resolves the placeholder to the literal fallback
`No response text`: the extraction falls back, and a turn resolving to
such a record ends with that fallback as the final text of the last
message. -/
theorem C10_fallback :
    (∀ (rec : TaskRecord), rec.messageText = none →
        extractReplyText rec = "No response text") ∧
    (∀ (rec : TaskRecord), rec.messageText = some "" →
        extractReplyText rec = "No response text") ∧
    (∀ (env : Nat → AttemptEnv) (ctx0 : Option String) (text : String) (r : Nat)
        (s : SendState) (tid : String) (sctx : Option String) (st : String) (k : Nat),
        (env s.attempts).fetch = FetchOutcome.task tid sctx →
        pollForResult (env s.attempts).polls = Except.ok (⟨st, none⟩, k) →
        (sendMessageToAgent env ctx0 text r s).messages.getLast? =
          some ⟨Sender.ai, "No response text"⟩) := by
  refine ⟨?_, ?_, ?_⟩
  · intro rec h
    unfold extractReplyText
    rw [h]
  · intro rec h
    unfold extractReplyText
    rw [h]
    rfl
  · intro env ctx0 text r s tid sctx st k hfetch hpoll
    have h := (send_success_state env ctx0 text r s tid sctx ⟨st, none⟩ k hfetch hpoll).1
    rw [h, List.getLast?_concat]
    rfl

/-- Witness for C10 at a concrete input. -/
theorem C10_witness :
    (⟨"failed", none⟩ : TaskRecord).messageText = none ∧
    extractReplyText ⟨"failed", none⟩ = "No response text" ∧
    (failedSilentEnv 0).fetch = FetchOutcome.task "task-9" none ∧
    pollForResult (failedSilentEnv 0).polls = Except.ok (⟨"failed", none⟩, 1) ∧
    (sendMessageToAgent failedSilentEnv none "hello" 3 initState).messages.getLast? =
      some ⟨Sender.ai, "No response text"⟩ :=
  ⟨rfl, C10_fallback.1 ⟨"failed", none⟩ rfl, rfl, rfl,
    C10_fallback.2.2 failedSilentEnv none "hello" 3 initState "task-9" none "failed" 1 rfl rfl⟩

end AiExcelInterviewer
